import Mathlib

/-!
Verification development for the SummarizeIt repository (`src/app.py`).

The app is a single Streamlit page: it validates a URL, extracts text either
from a YouTube transcript or from a scraped web page, substitutes the text
into a fixed prompt template and calls a hosted chat model.  All third-party
calls (the transcript API, HTTP fetching and HTML parsing, the chat model,
`validators.url`) are modelled as oracle parameters; the control flow, string
manipulation and error handling of `app.py` itself are embedded directly.

Python strings are modelled as `String`; where character-level work is needed
(URL parsing, trimming) we work on `List Char` so that everything evaluates by
`decide`/`rfl`.
-/

namespace SummarizeIt

abbrev Chars := List Char

/-- Does `s` start with `pat`?  (list-of-chars version of Python slicing
checks such as comparing `url[:2]` against a two-character literal). -/
def startsWithC : Chars → Chars → Bool
  | _, [] => true
  | [], _ :: _ => false
  | a :: as, b :: bs => a = b && startsWithC as bs

/-- Python's substring test `pat in s`. -/
def containsC : Chars → Chars → Bool
  | s, pat =>
    startsWithC s pat ||
      (match s with
       | [] => false
       | _ :: t => containsC t pat)

/-- Python's `pat in s` on `String`s, as used by
`if "youtube.com" in url or "youtu.be" in url`. -/
def strContains (s pat : String) : Bool := containsC s.data pat.data

/-- Split at the first occurrence of `c`, removing it: Python
`s.split(c, 1)` when `c` occurs, `none` when it does not. -/
def splitFirstC (c : Char) : Chars → Option (Chars × Chars)
  | [] => none
  | a :: as =>
    if a = c then some ([], as)
    else (splitFirstC c as).map (fun p => (a :: p.1, p.2))

/-- Longest prefix not containing a stop character, together with the rest
(the rest keeps the stop character), as in CPython's `_splitnetloc`. -/
def spanUntil (stop : Char → Bool) : Chars → Chars × Chars
  | [] => ([], [])
  | a :: as =>
    if stop a then ([], a :: as)
    else
      let p := spanUntil stop as
      (a :: p.1, p.2)

/-- Split on every occurrence of `c`: Python `s.split(c)`. -/
def splitAllC (c : Char) : Chars → List Chars
  | [] => [[]]
  | a :: as =>
    if a = c then [] :: splitAllC c as
    else
      match splitAllC c as with
      | [] => [[a]]
      | h :: t => (a :: h) :: t

/-- Part of `s` after the last occurrence of `c`; `s` itself when `c` does
not occur (Python `s.rpartition(c)[2]`). -/
def afterLastC (c : Char) (s : Chars) : Chars :=
  (s.reverse.takeWhile (fun a => a ≠ c)).reverse

/-- Python `str.strip()` truthiness: true iff every character is whitespace
(so the stripped string is empty / falsy). -/
def blankC (cs : Chars) : Bool := cs.all Char.isWhitespace

/-- Python `s.strip()`. -/
def trimC (cs : Chars) : Chars :=
  ((cs.dropWhile Char.isWhitespace).reverse.dropWhile Char.isWhitespace).reverse

/-- Python truthiness of `s.strip()` on `String`s. -/
def strBlank (s : String) : Bool := blankC s.data

/-- Python `s.strip()` on `String`s. -/
def strTrim (s : String) : String := ⟨trimC s.data⟩

/-- Python `sep.join(parts)`. -/
def joinSep (sep : String) : List String → String
  | [] => ""
  | [x] => x
  | x :: y :: t => x ++ sep ++ joinSep sep (y :: t)

/-- Python truthiness of an optional string (`None` and `""` are falsy). -/
def optStrTruthy : Option String → Bool
  | none => false
  | some s => s ≠ ""

/-! ## `urllib.parse`: the subset used by `get_youtube_id`

`app.py` uses `urlparse(url).hostname`, `.path` and `parse_qs(.query)`.
We embed the CPython algorithm for `urlsplit` restricted to what those
accessors read: scheme detection, netloc extraction, fragment and query
splitting, parameter splitting, hostname extraction (userinfo stripped,
port stripped, lower-cased) and `parse_qsl`.  Percent- and plus-decoding
inside query values (`unquote_plus`) is modelled as the identity: no claim
involves percent-escaped query values. -/

/-- Result of CPython `urlsplit` (the fields `app.py` reads, plus the ones
needed to compute them). -/
structure SplitResult where
  scheme : Chars
  netloc : Chars
  pathPart : Chars
  query : Chars
  fragment : Chars
deriving DecidableEq

/-- Characters allowed in a URL scheme after the leading letter
(CPython `scheme_chars`). -/
def isSchemeChar (c : Char) : Bool :=
  c.isAlphanum || c = '+' || c = '-' || c = '.'

/-- CPython `urlsplit` scheme detection: split at the first colon when the
text before it is a non-empty run of scheme characters starting with a
letter; the scheme is lower-cased. -/
def splitSchemeC (url : Chars) : Chars × Chars :=
  match splitFirstC ':' url with
  | none => ([], url)
  | some p =>
    if p.1 ≠ [] ∧ (p.1.headD ' ').isAlpha ∧ p.1.all isSchemeChar then
      (p.1.map Char.toLower, p.2)
    else
      ([], url)

/-- CPython `_splitnetloc`: when the remainder starts with two slashes, the
netloc runs up to the next slash, question mark or hash. -/
def splitNetlocC (rest : Chars) : Chars × Chars :=
  if startsWithC rest ['/', '/'] then
    spanUntil (fun c => c = '/' || c = '?' || c = '#') (rest.drop 2)
  else
    ([], rest)

/-- CPython `urlsplit` on a list of characters. -/
def urlsplitC (url : Chars) : SplitResult :=
  let s := splitSchemeC url
  let n := splitNetlocC s.2
  let f := match splitFirstC '#' n.2 with
    | some p => p
    | none => (n.2, [])
  let q := match splitFirstC '?' f.1 with
    | some p => p
    | none => (f.1, [])
  ⟨s.1, n.1, q.1, q.2, f.2⟩

/-- CPython `_splitparams`, applied by `urlparse` on top of `urlsplit`:
when the path contains a semicolon (after its last slash), the part after
it becomes `params` and is removed from `path`. -/
def splitParamsC (p : Chars) : Chars × Chars :=
  if containsC p [';'] then
    let afterSlash := if containsC p ['/'] then afterLastC '/' p else p
    match splitFirstC ';' afterSlash with
    | none => (p, [])
    | some q =>
      let keep := p.length - (q.2.length + 1)
      (p.take keep, q.2)
  else
    (p, [])

/-- CPython `urlparse(url).path`: `urlsplit`'s path with params removed. -/
def urlparsePathC (url : Chars) : Chars :=
  (splitParamsC (urlsplitC url).pathPart).1

/-- CPython hostname extraction from a netloc: drop userinfo (text up to the
last at-sign), handle a bracketed IPv6 literal, otherwise drop the port
(text after the first colon); empty gives `None`, else lower-case. -/
def hostnameC (netloc : Chars) : Option Chars :=
  let hostinfo := afterLastC '@' netloc
  let host :=
    match splitFirstC '[' hostinfo with
    | some p => (spanUntil (fun c => c = ']') p.2).1
    | none => (spanUntil (fun c => c = ':') hostinfo).1
  if host = [] then none else some (host.map Char.toLower)

/-- CPython `parse_qsl` with default settings (separator is the ampersand,
blank values and chunks without an equals sign are skipped); `unquote_plus`
is modelled as the identity (no claim involves encoded query values). -/
def parseQslC (query : Chars) : List (Chars × Chars) :=
  (splitAllC '&' query).filterMap (fun chunk =>
    if chunk = [] then none
    else
      match splitFirstC '=' chunk with
      | none => none
      | some nv => if nv.2 = [] then none else some nv)

/-- `parse_qs(query).get('v', [None])[0]`: the first value bound to the key
`v`, if any. -/
def parseQsVC (query : Chars) : Option Chars :=
  ((parseQslC query).filter (fun nv => nv.1 = ['v'])).head?.map Prod.snd

/-- `urlparse(url).hostname` as a `String`. -/
def url_hostname (url : String) : Option String :=
  (hostnameC (urlsplitC url.data).netloc).map (fun cs => ⟨cs⟩)

/-- `urlparse(url).path` as a `String`. -/
def url_path (url : String) : String := ⟨urlparsePathC url.data⟩

/-- `urlparse(url).query` as a `String`. -/
def url_query (url : String) : String := ⟨(urlsplitC url.data).query⟩

/-! ## `get_youtube_id` (src/app.py lines 66-74) -/

/-- `get_youtube_id`: for a `youtu.be` host the ID is the path with its
first character removed; for a `youtube.com` host with path `/watch` it is
the first `v` query value; otherwise `None`. -/
def get_youtube_id (url : String) : Option String :=
  let host := url_hostname url
  if host = some "youtu.be" ∨ host = some "www.youtu.be" then
    some ⟨(url_path url).data.drop 1⟩
  else if host = some "youtube.com" ∨ host = some "www.youtube.com" then
    if url_path url = "/watch" then
      (parseQsVC (url_query url).data).map (fun cs => ⟨cs⟩)
    else none
  else none

/-! ## Exceptions and results

Python exceptions are modelled by `Exc`; the only exception class the code
distinguishes (`except NoTranscriptFound`) gets its own constructor, every
other exception is `Exc.other`.  A Python function call either returns
normally or raises: `PyResult` makes the raised case visible at the top
level, so "no exception escapes" is a provable statement rather than a
typing triviality. -/

/-- A Python exception: `NoTranscriptFound` (the only class `app.py` catches
specifically) or any other exception, each carrying its `str(e)`. -/
inductive Exc where
  | noTranscriptFound (msg : String)
  | other (msg : String)
deriving DecidableEq

/-- `str(e)` of an exception. -/
def Exc.msg : Exc → String
  | .noTranscriptFound m => m
  | .other m => m

/-- Outcome of calling a Python function: a normal return or an escaped
exception. -/
inductive PyResult (α : Type) where
  | ret (a : α)
  | raised (e : Exc)
deriving DecidableEq

/-! ## `get_youtube_transcript` (src/app.py lines 76-137)

The calls into `youtube_transcript_api` are oracles carried by `YTEnv` /
`TranscriptList` / `Transcript`: each field records what the corresponding
call would return or raise. -/

deriving instance DecidableEq for Except

/-- A transcript object reduced to what the code reads of it: its `fetch()`
outcome (the `text` field of each caption segment). -/
structure TranscriptData where
  fetchResult : Except Exc (List String)
deriving DecidableEq

/-- A `Transcript` as used by the code: language code, its own fetch
outcome, and the outcome of `.translate('en')` (which yields another
transcript, of which only the fetch outcome is used). -/
structure Transcript where
  language_code : String
  data : TranscriptData
  translateEn : Except Exc TranscriptData
deriving DecidableEq

/-- A `TranscriptList` as used by the code: the outcomes of
`find_transcript(['en'])`, `find_manually_created_transcript()` and
`list(transcript_list.transcripts.values())`. -/
structure TranscriptList where
  findTranscriptEn : Except Exc Transcript
  findManuallyCreated : Except Exc Transcript
  availableTranscripts : Except Exc (List Transcript)
deriving DecidableEq

/-- Oracle for the two module-level `YouTubeTranscriptApi` calls, as
functions of the video ID. -/
structure YTEnv where
  getTranscript : String → Except Exc (List String)
  listTranscripts : String → Except Exc TranscriptList

/-- `' '.join([t['text'] for t in ...])`. -/
def joinTexts (ts : List String) : String := joinSep " " ts

/-- The fallback selection inside `get_youtube_transcript` (lines 88-110):
`transcript = None`; try the English transcript, swallowing only
`NoTranscriptFound`; if still none, try a manually created transcript,
swallowing only `NoTranscriptFound`; if still none, take the first
available transcript, swallowing any exception. -/
def pickFallback (tl : TranscriptList) : Except Exc (Option Transcript) :=
  match tl.findTranscriptEn with
  | .ok t => .ok (some t)
  | .error (.other m) => .error (.other m)
  | .error (.noTranscriptFound _) =>
    match tl.findManuallyCreated with
    | .ok t => .ok (some t)
    | .error (.other m) => .error (.other m)
    | .error (.noTranscriptFound _) =>
      .ok (match tl.availableTranscripts with
           | .ok (t :: _) => some t
           | .ok [] => none
           | .error _ => none)

/-- Line 121: `' '.join([t['text'] for t in transcript.fetch()])`; the
fetch may raise (the raise escapes to the outer handler).  `warns` carries
along the warnings issued before the fetch. -/
def fetchJoin (td : TranscriptData) (warns : List String) :
    Except Exc (String × List String) :=
  match td.fetchResult with
  | .ok ts => .ok (joinTexts ts, warns)
  | .error e => .error e

/-- Lines 113-122: if the found transcript is not English, try to translate
it (on failure warn and keep the original untranslated), then fetch and
join. -/
def finishTranscript (t : Transcript) : Except Exc (String × List String) :=
  if t.language_code ≠ "en" then
    match t.translateEn with
    | .ok td => fetchJoin td []
    | .error e =>
      fetchJoin t.data ["Could not translate transcript to English: " ++ Exc.msg e]
  else fetchJoin t.data []

/-- The body of `get_youtube_transcript` up to (but not including) the
outer `except Exception` handler: try `get_transcript` directly; on any
exception, `list_transcripts` (a raise here escapes to the outer handler),
the fallback selection, then the translate-and-fetch step; with no
transcript found, raise. -/
def get_youtube_transcript_inner (env : YTEnv) (vid : String) :
    Except Exc (String × List String) :=
  match env.getTranscript vid with
  | .ok ts => .ok (joinTexts ts, [])
  | .error _ =>
    match env.listTranscripts vid with
    | .error e => .error e
    | .ok tl =>
      match pickFallback tl with
      | .error e => .error e
      | .ok (some t) => finishTranscript t
      | .ok none => .error (.other "No transcript found after trying all methods")

/-- The `st.error` text of the outer handler (lines 127-136). -/
def detailedError (e : Exc) : String :=
  "Could not extract transcript: " ++ Exc.msg e ++
  "\n        \n        This might be due to:" ++
  "\n        1. The video doesn\x27t have any captions/subtitles" ++
  "\n        2. The captions are disabled or private" ++
  "\n        3. YouTube API access issues" ++
  "\n        \n        Please try another video or verify that captions are available."

/-- `get_youtube_transcript`: the body wrapped in the outer
`except Exception` handler, which reports `detailedError` and returns
`None`.  The second component is the list of `st.warning`/`st.error`
messages issued. -/
def get_youtube_transcript (env : YTEnv) (vid : String) :
    PyResult (Option String × List String) :=
  match get_youtube_transcript_inner env vid with
  | .ok p => .ret (some p.1, p.2)
  | .error e => .ret (none, [detailedError e])

/-! ## `extract_text_from_url` (src/app.py lines 139-168)

`requests.get` + `raise_for_status` + `BeautifulSoup` parsing and element
removal are third-party work, modelled by a `Soup` oracle: the list of
`get_text()` results of the elements the code iterates over.  The joining,
stripping, filtering and the blank guard of lines 157-165 are embedded. -/

/-- The parsed page as the code sees it: `get_text()` of the
paragraph/heading elements under the main content area (when one of
`main`/`article`/`div.content`/`body` was found), and of all `p` elements
for the fallback. -/
structure Soup where
  mainContent : Option (List String)
  allParagraphs : List String
deriving DecidableEq

/-- Oracle for lines 142-155: fetching and parsing the page; an `error`
models any exception raised by `requests.get`, `raise_for_status` or the
parsing. -/
structure WebEnv where
  fetchPage : String → Except Exc Soup

/-- Lines 157-163: pick the element list, strip each element's text, keep
the non-blank ones, join with single spaces. -/
def extracted_text (soup : Soup) : String :=
  let ps := match soup.mainContent with
    | some ps => ps
    | none => soup.allParagraphs
  joinSep " " ((ps.map strTrim).filter (fun s => s ≠ ""))

/-- `extract_text_from_url`: on success return the joined text, or `None`
when it is blank (line 165); on any exception report
`Web extraction error: ...` and return `None`.  The second component is
the list of `st.error` messages issued. -/
def extract_text_from_url (env : WebEnv) (url : String) :
    PyResult (Option String × List String) :=
  match env.fetchPage url with
  | .ok soup =>
    let text := extracted_text soup
    .ret (if strBlank text then none else some text, [])
  | .error e => .ret (none, ["Web extraction error: " ++ Exc.msg e])

/-! ## Prompt template and chain (src/app.py lines 55-64, 195-206) -/

/-- The module-level `prompt_template` string (lines 55-63). -/
def prompt_template : String :=
  "\nProvide a summary of the following content in 300 words:\nContent: {text}\n\nPlease include:\n- Main points and key takeaways\n- Important details and context\n- Conclusion or final thoughts\n"

/-- Replace every occurrence of `pat` by `rep` (Python `str.replace`), used
to model the single-variable `PromptTemplate` substitution. -/
def replaceAllC (pat rep : Chars) : Chars → Chars
  | [] => []
  | a :: t =>
    if pat ≠ [] ∧ startsWithC (a :: t) pat then
      rep ++ replaceAllC pat rep (t.drop (pat.length - 1))
    else
      a :: replaceAllC pat rep t
termination_by s => s.length
decreasing_by
  · simpa using Nat.lt_succ_of_le (Nat.sub_le _ _ |>.trans (by simp))
  · simp

/-- `PromptTemplate.from_template(prompt_template)` applied to a value for
its single variable `text`: substitute the content into the fixed
template. -/
def formatPrompt (content : String) : String :=
  ⟨replaceAllC "{text}".data content.data prompt_template.data⟩

/-- A LangChain `Document` reduced to what the code uses. -/
structure Document where
  page_content : String
deriving DecidableEq

/-- `StuffDocumentsChain`: the documents are stuffed into the prompt
variable `text` by joining their contents (LangChain's default document
separator is a blank line). -/
def stuffDocuments (docs : List Document) : String :=
  joinSep "\n\n" (docs.map Document.page_content)

/-! ## `summarize_content` (src/app.py lines 171-209) -/

/-- Oracles for one run of `summarize_content`: the transcript API, the web
fetcher, and the chat model (the outcome of `stuff_chain.run`, as a
function of the full prompt string sent to the model). -/
structure AppEnv where
  yt : YTEnv
  web : WebEnv
  llmCall : String → Except Exc String

/-- Observable calls made during `summarize_content`: the prompt strings
sent to the model, and whether the website-extraction branch ran. -/
structure CallLog where
  llmInputs : List String
  webCalled : Bool
deriving DecidableEq

/-- The branch condition of line 173:
`"youtube.com" in url or "youtu.be" in url`. -/
def ytCond (url : String) : Bool :=
  strContains url "youtube.com" || strContains url "youtu.be"

/-- The outer `except Exception` handler of lines 208-209. -/
def processingError (e : Exc) : String :=
  "Error processing content: " ++ Exc.msg e

/-- Lines 192-206, shared by both branches: guard that the document list is
non-empty and its first document's content is non-blank (else the
no-content error); otherwise build the chain and run it on the stuffed
documents; an exception from the model call is caught by the outer handler
of lines 208-209. -/
def summarize_tail (env : AppEnv) (docs : List Document) (log : CallLog) :
    PyResult (Option String × Option String) × CallLog :=
  match docs with
  | [] => (.ret (none, some "No content could be extracted from the URL"), log)
  | d :: _ =>
    if strBlank d.page_content then
      (.ret (none, some "No content could be extracted from the URL"), log)
    else
      let input := formatPrompt (stuffDocuments docs)
      let log2 := CallLog.mk (log.llmInputs ++ [input]) log.webCalled
      match env.llmCall input with
      | .ok summary => (.ret (some summary, none), log2)
      | .error e => (.ret (none, some (processingError e)), log2)

/-- `summarize_content`: substring dispatch to the YouTube branch (video-ID
extraction, transcript fetch) or the website branch (text extraction), then
the shared guard-and-chain tail.  The whole body sits in a
`try/except Exception` whose handler returns
`(None, "Error processing content: ...")`; a helper that (counterfactually)
raised would land in that handler via the `.raised` arms.  Returns the
`(summary, error)` pair and the call log. -/
def summarize_content (env : AppEnv) (url : String) :
    PyResult (Option String × Option String) × CallLog :=
  if ytCond url then
    let vres := get_youtube_id url
    if optStrTruthy vres = false then
      (.ret (none, some "Could not extract YouTube video ID from URL"), ⟨[], false⟩)
    else
      match get_youtube_transcript env.yt (vres.getD "") with
      | .raised e => (.ret (none, some (processingError e)), ⟨[], false⟩)
      | .ret tr =>
        if optStrTruthy tr.1 = false then
          (.ret (none, some "Could not extract transcript from YouTube video. The video might not have subtitles enabled."), ⟨[], false⟩)
        else
          summarize_tail env [Document.mk (tr.1.getD "")] ⟨[], false⟩
  else
    match extract_text_from_url env.web url with
    | .raised e => (.ret (none, some (processingError e)), ⟨[], true⟩)
    | .ret tr =>
      if optStrTruthy tr.1 = false then
        (.ret (none, some "No content could be extracted from the URL. The page might be protected or require authentication."), ⟨[], true⟩)
      else
        summarize_tail env [Document.mk (tr.1.getD "")] ⟨[], true⟩

/-! ## Button handler (src/app.py lines 212-224) -/

/-- What the handler renders: an `st.error` box, or an `st.success` box
with the summary (`None` is impossible there, but kept so the model states
rather than assumes it), or an uncaught exception (never produced). -/
inductive UIOutcome where
  | errorBox (msg : String)
  | successBox (summary : Option String)
  | uncaught (e : Exc)
deriving DecidableEq

/-- The `st.button("Summarize Content")` handler: blank input gives the
provide-a-URL error; input failing `validators.url` gives the valid-URL
error; otherwise run `summarize_content` and render its error or its
summary.  `validators_url` is the third-party validator as an oracle.  The
second component records whether `summarize_content` was invoked. -/
def handle_summarize (env : AppEnv) (validators_url : String → Bool)
    (generic_url : String) : UIOutcome × Bool :=
  if strBlank generic_url then
    (.errorBox "Please provide a URL to get started", false)
  else if validators_url generic_url = false then
    (.errorBox "Please enter a valid URL (YouTube video or website)", false)
  else
    match summarize_content env generic_url with
    | (.ret se, _) =>
      (if optStrTruthy se.2 then .errorBox (se.2.getD "") else .successBox se.1, true)
    | (.raised e, _) => (.uncaught e, true)

/-! ## Secrets, `get_llm` and module state (src/app.py lines 15-17, 45-52) -/

/-- The `ChatGroq(...)` construction arguments. -/
structure ChatGroqConfig where
  model : String
  groq_api_key : String
deriving DecidableEq

/-- The `st.cache_resource` cache for `get_llm` — the only module-level
mutable state. -/
structure CacheState where
  cached_llm : Option ChatGroqConfig
deriving DecidableEq

/-- `get_llm` under `st.cache_resource`: return the cached handle if there
is one, otherwise construct `ChatGroq(model="gemma2-9b-it",
groq_api_key=<the stored key>)` and cache it. -/
def get_llm (key : String) (c : CacheState) : ChatGroqConfig × CacheState :=
  match c.cached_llm with
  | some cfg => (cfg, c)
  | none =>
    let cfg := ChatGroqConfig.mk "gemma2-9b-it" key
    (cfg, CacheState.mk (some cfg))

/-- Result of the module prologue: either stopped at line 17 (the form is
never rendered) or running with the constructed model client. -/
inductive AppInit where
  | stopped (msg : String)
  | running (cfg : ChatGroqConfig) (c : CacheState)
deriving DecidableEq

/-- Lines 15-17 and 45-52: if `GROQ_API_KEY` is not in `st.secrets`, report
the error and stop before any widget is rendered; otherwise build the model
client from the stored key (through the `get_llm` cache). -/
def app_init (secrets : String → Option String) (c : CacheState) : AppInit :=
  match secrets "GROQ_API_KEY" with
  | none => .stopped "GROQ_API_KEY is not set in the secrets. Please set it up in your Streamlit dashboard."
  | some key =>
    let p := get_llm key c
    .running p.1 p.2

/-- The external world for a whole request: the transcript API, the web
fetcher, and the chat endpoint as a function of the client configuration. -/
structure Oracles where
  yt : YTEnv
  web : WebEnv
  llmRespond : ChatGroqConfig → String → Except Exc String

/-- One Streamlit rerun with the button pressed: obtain the (cached) model
client, then run the button handler.  Returns the rendered outcome, whether
`summarize_content` ran, and the module state afterwards. -/
def run_request (key : String) (o : Oracles) (validators_url : String → Bool)
    (c : CacheState) (url : String) : (UIOutcome × Bool) × CacheState :=
  let p := get_llm key c
  (handle_summarize ⟨o.yt, o.web, o.llmRespond p.1⟩ validators_url url, p.2)

/-! ## Transcript cleaning (spec-modelled)

The revision under `src/` does not contain the transcript-cleaning step;
per the spec it exists in other revisions of the repository.  It is
modelled here from the spec's words. -/

/-- Modelled from the spec: the transcript cleaning step, absent from the
`src/app.py` revision, "deduplicates whitespace-separated tokens per line"
by "naive duplicate-word collapsing" — collapse adjacent duplicate words
within one line. -/
def collapse_dup_words : List String → List String
  | [] => []
  | [w] => [w]
  | w1 :: w2 :: ws =>
    if w1 = w2 then collapse_dup_words (w2 :: ws)
    else w1 :: collapse_dup_words (w2 :: ws)

/-- Modelled from the spec: the per-line cleaning — a transcript viewed as
lines of whitespace-separated tokens, each line collapsed independently. -/
def clean_transcript_lines (t : List (List String)) : List (List String) :=
  t.map collapse_dup_words

/-! ## Retry loop (spec-modelled)

The revision under `src/` has no retry logic; per the spec two revisions
wrap the fetch in "a fixed-count sleep-and-retry loop with no backoff
policy, no jitter, and no distinction between retryable and non-retryable
failures".  It is modelled here from those words. -/

/-- Trace of one run of the retry loop: the final result, the sleep
durations performed between attempts, and how many attempts ran. -/
structure RetryTrace (α : Type) where
  result : Except String α
  sleeps : List Nat
  attempts : Nat
deriving DecidableEq

/-- Modelled from the spec: the sleep-and-retry loop, absent from the
`src/app.py` revision — run the operation; on success stop; on failure, if
attempts remain, sleep the fixed `delay` and try again; the last failure is
returned as is.  `op` maps the attempt index to that attempt's outcome. -/
def retryLoop (delay : Nat) (op : Nat → Except String α) :
    Nat → Nat → RetryTrace α
  | _, 0 => ⟨.error "retry loop given zero attempts", [], 0⟩
  | i, 1 => ⟨op i, [], 1⟩
  | i, n + 2 =>
    match op i with
    | .ok a => ⟨.ok a, [], 1⟩
    | .error _ =>
      let t := retryLoop delay op (i + 1) (n + 1)
      ⟨t.result, delay :: t.sleeps, t.attempts + 1⟩

/-- Modelled from the spec: the retry loop entered at attempt 0 with a
fixed attempt budget. -/
def retry_with_sleep (maxAttempts delay : Nat) (op : Nat → Except String α) :
    RetryTrace α :=
  retryLoop delay op 0 maxAttempts

/-! ## Helper lemmas -/

/-- `get_youtube_transcript` always returns (its outer handler catches
everything and never re-raises). -/
theorem yt_never_raises (env : YTEnv) (vid : String) :
    ∃ o m, get_youtube_transcript env vid = .ret (o, m) := by
  unfold get_youtube_transcript
  cases get_youtube_transcript_inner env vid with
  | ok p => exact ⟨some p.1, p.2, rfl⟩
  | error e => exact ⟨none, [detailedError e], rfl⟩

/-- `extract_text_from_url` always returns. -/
theorem web_never_raises (env : WebEnv) (url : String) :
    ∃ o m, extract_text_from_url env url = .ret (o, m) := by
  unfold extract_text_from_url
  cases env.fetchPage url with
  | ok soup => exact ⟨_, _, rfl⟩
  | error e => exact ⟨none, _, rfl⟩

/-- The shared tail always returns, with exactly one of summary/error
present. -/
theorem summarize_tail_ret (env : AppEnv) (docs : List Document) (log : CallLog) :
    ∃ p log2, summarize_tail env docs log = (.ret p, log2) ∧
      (p.1.isSome ↔ p.2 = none) := by
  cases docs with
  | nil => exact ⟨_, _, rfl, by simp⟩
  | cons d rest =>
    unfold summarize_tail
    dsimp only
    by_cases hb : strBlank d.page_content
    · rw [if_pos hb]; exact ⟨_, _, rfl, by simp⟩
    · rw [if_neg hb]
      cases env.llmCall (formatPrompt (stuffDocuments (d :: rest))) with
      | ok s => exact ⟨_, _, rfl, by simp⟩
      | error e => exact ⟨_, _, rfl, by simp⟩

/-- `summarize_content` always returns, with exactly one of summary/error
present. -/
theorem summarize_ret (env : AppEnv) (url : String) :
    ∃ p log, summarize_content env url = (.ret p, log) ∧
      (p.1.isSome ↔ p.2 = none) := by
  unfold summarize_content
  by_cases hyt : ytCond url
  · rw [if_pos hyt]
    by_cases hv : optStrTruthy (get_youtube_id url) = false
    · rw [if_pos hv]; exact ⟨_, _, rfl, by simp⟩
    · rw [if_neg hv]
      obtain ⟨o, m, h⟩ := yt_never_raises env.yt ((get_youtube_id url).getD "")
      rw [h]
      dsimp only
      by_cases ht : optStrTruthy o = false
      · rw [if_pos ht]; exact ⟨_, _, rfl, by simp⟩
      · rw [if_neg ht]; exact summarize_tail_ret env _ _
  · rw [if_neg hyt]
    obtain ⟨o, m, h⟩ := web_never_raises env.web url
    rw [h]
    dsimp only
    by_cases ht : optStrTruthy o = false
    · rw [if_pos ht]; exact ⟨_, _, rfl, by simp⟩
    · rw [if_neg ht]; exact summarize_tail_ret env _ _

/-! ## C1 -/

/-- C1: for every input URL no exception escapes the pipeline:
`summarize_content` always returns a pair with exactly one of
summary/error present (so every failing step surfaces as `(None, error)`),
and `get_youtube_transcript` / `extract_text_from_url` always return —
when their bodies raise, they report a user-facing error string and return
`None` instead of propagating. -/
theorem C1_no_exception_escapes (aenv : AppEnv) (url u2 : String)
    (yenv : YTEnv) (vid : String) (wenv : WebEnv) :
    (∃ p log, summarize_content aenv url = (.ret p, log) ∧
      (p.1.isSome ↔ p.2 = none)) ∧
    (∃ o m, get_youtube_transcript yenv vid = .ret (o, m)) ∧
    (∀ e, get_youtube_transcript_inner yenv vid = .error e →
      get_youtube_transcript yenv vid = .ret (none, [detailedError e])) ∧
    (∃ o m, extract_text_from_url wenv u2 = .ret (o, m)) ∧
    (∀ e, wenv.fetchPage u2 = .error e →
      extract_text_from_url wenv u2 = .ret (none, ["Web extraction error: " ++ Exc.msg e])) := by
  refine ⟨summarize_ret aenv url, yt_never_raises yenv vid, ?_,
    web_never_raises wenv u2, ?_⟩
  · intro e he
    unfold get_youtube_transcript
    rw [he]
  · intro e he
    unfold extract_text_from_url
    rw [he]

/-! Sample oracles used by the witnesses. -/

/-- Sample transcript list: no English transcript, a manually created
French transcript whose translation to English succeeds. -/
def sampleTL : TranscriptList :=
  ⟨.error (.noTranscriptFound "n"),
   .ok ⟨"fr", ⟨.ok ["bonjour"]⟩, .ok ⟨.ok ["hello"]⟩⟩,
   .ok []⟩

/-- Sample transcript oracle whose direct fetch fails and whose transcript
list is `sampleTL`. -/
def sampleYT : YTEnv :=
  ⟨fun _ => .error (.other "boom"), fun _ => .ok sampleTL⟩

/-- Sample transcript oracle whose direct fetch succeeds. -/
def sampleYTok : YTEnv :=
  ⟨fun _ => .ok ["hello", "world"], fun _ => .error (.other "x")⟩

/-- Sample transcript oracle where every approach fails. -/
def sampleYTnone : YTEnv :=
  ⟨fun _ => .error (.other "boom"),
   fun _ => .ok ⟨.error (.noTranscriptFound "n"), .error (.noTranscriptFound "n"), .ok []⟩⟩

/-- Sample web oracle returning one paragraph. -/
def sampleWeb : WebEnv := ⟨fun _ => .ok ⟨some ["  hi there  "], []⟩⟩

/-- Sample web oracle whose fetch raises. -/
def sampleWebErr : WebEnv := ⟨fun _ => .error (.other "connection refused")⟩

/-- Sample full environment with a successful model call. -/
def sampleEnv : AppEnv := ⟨sampleYTok, sampleWeb, fun _ => .ok "S"⟩

/-- Witness for C1 at concrete oracles: the failing web fetch is caught and
reported, and the transcript helper returns rather than raising. -/
theorem C1_witness :
    (∃ p log, summarize_content sampleEnv "https://example.com" = (.ret p, log) ∧
      (p.1.isSome ↔ p.2 = none)) ∧
    (∃ o m, get_youtube_transcript sampleYTnone "v" = .ret (o, m)) ∧
    (∀ e, get_youtube_transcript_inner sampleYTnone "v" = .error e →
      get_youtube_transcript sampleYTnone "v" = .ret (none, [detailedError e])) ∧
    (∃ o m, extract_text_from_url sampleWebErr "https://example.com" = .ret (o, m)) ∧
    (∀ e, sampleWebErr.fetchPage "https://example.com" = .error e →
      extract_text_from_url sampleWebErr "https://example.com" =
        .ret (none, ["Web extraction error: " ++ Exc.msg e])) := by
  have h := C1_no_exception_escapes sampleEnv "https://example.com"
    "https://example.com" sampleYTnone "v" sampleWebErr
  refine ⟨h.1, h.2.1, fun e he => h.2.2.1 e he, h.2.2.2.1, fun e he => h.2.2.2.2 e he⟩

/-! ## C2 -/

/-- C2: URL validation precedes extraction: blank input gives the
provide-a-URL error without invoking `summarize_content`; non-blank input
failing `validators.url` gives the valid-URL error without invoking it;
and `summarize_content` (hence any extraction or model call) is invoked
only when the input is non-blank and passes validation. -/
theorem C2_validation_precedes_extraction (env : AppEnv)
    (validators_url : String → Bool) (url : String) :
    (strBlank url = true →
      handle_summarize env validators_url url =
        (.errorBox "Please provide a URL to get started", false)) ∧
    (strBlank url = false → validators_url url = false →
      handle_summarize env validators_url url =
        (.errorBox "Please enter a valid URL (YouTube video or website)", false)) ∧
    ((handle_summarize env validators_url url).2 = true →
      strBlank url = false ∧ validators_url url = true) := by
  refine ⟨?_, ?_, ?_⟩
  · intro hb
    unfold handle_summarize
    rw [if_pos hb]
  · intro hb hv
    unfold handle_summarize
    rw [if_neg (by rw [hb]; exact Bool.false_ne_true), if_pos hv]
  · intro hcall
    unfold handle_summarize at hcall
    by_cases hb : strBlank url
    · rw [if_pos hb] at hcall; exact absurd hcall Bool.false_ne_true
    · refine ⟨Bool.eq_false_iff.mpr hb, ?_⟩
      rw [if_neg hb] at hcall
      by_cases hv : validators_url url = false
      · rw [if_pos hv] at hcall; exact absurd hcall Bool.false_ne_true
      · exact eq_true_of_ne_false hv

/-- Witness for C2: at a blank input, at a non-blank invalid input, and at
a valid input, the three clauses hold at concrete values. -/
theorem C2_witness :
    handle_summarize sampleEnv (fun u => u = "https://example.com") "  " =
      (.errorBox "Please provide a URL to get started", false) ∧
    handle_summarize sampleEnv (fun u => u = "https://example.com") "nope" =
      (.errorBox "Please enter a valid URL (YouTube video or website)", false) ∧
    ((handle_summarize sampleEnv (fun _ => true) "https://example.com").2 = true →
      strBlank "https://example.com" = false ∧
        (fun _ : String => true) "https://example.com" = true) := by
  refine ⟨?_, ?_, ?_⟩
  · exact (C2_validation_precedes_extraction sampleEnv _ "  ").1 (by decide)
  · exact (C2_validation_precedes_extraction sampleEnv _ "nope").2.1 (by decide)
      (by simp)
  · exact fun h =>
      (C2_validation_precedes_extraction sampleEnv (fun _ => true)
        "https://example.com").2.2 h

/-! ## C6 -/

/-- C6: the only persisted configuration is the API key from the secrets
store: with `GROQ_API_KEY` absent the app stops with an error before the
form; with it present the client is built from exactly that key and the
hard-coded model name, and the init outcome depends on nothing else in the
secrets store. -/
theorem C6_secrets_only_config (secrets : String → Option String) (key : String) :
    (secrets "GROQ_API_KEY" = none →
      app_init secrets (CacheState.mk none) =
        .stopped "GROQ_API_KEY is not set in the secrets. Please set it up in your Streamlit dashboard.") ∧
    (secrets "GROQ_API_KEY" = some key →
      app_init secrets (CacheState.mk none) =
        .running (ChatGroqConfig.mk "gemma2-9b-it" key)
          (CacheState.mk (some (ChatGroqConfig.mk "gemma2-9b-it" key)))) ∧
    (∀ secrets2 : String → Option String,
      secrets "GROQ_API_KEY" = secrets2 "GROQ_API_KEY" →
      app_init secrets (CacheState.mk none) = app_init secrets2 (CacheState.mk none)) := by
  refine ⟨?_, ?_, ?_⟩
  · intro h; unfold app_init; rw [h]
  · intro h; unfold app_init; rw [h]; rfl
  · intro secrets2 h; unfold app_init; rw [h]

/-- Witness for C6 at concrete secret stores: absent key stops the app,
present key reaches the client construction with that key. -/
theorem C6_witness :
    app_init (fun _ => none) (CacheState.mk none) =
      .stopped "GROQ_API_KEY is not set in the secrets. Please set it up in your Streamlit dashboard." ∧
    app_init (fun k => if k = "GROQ_API_KEY" then some "gsk-123" else none)
        (CacheState.mk none) =
      .running (ChatGroqConfig.mk "gemma2-9b-it" "gsk-123")
        (CacheState.mk (some (ChatGroqConfig.mk "gemma2-9b-it" "gsk-123"))) := by
  exact ⟨(C6_secrets_only_config (fun _ => none) "gsk-123").1 rfl,
    (C6_secrets_only_config (fun k => if k = "GROQ_API_KEY" then some "gsk-123" else none)
      "gsk-123").2.1 (by simp)⟩

/-! ## C9 -/

/-- C9: frame condition across requests: the model-client handle is created
once (after any call the cache holds the returned handle), a cached handle
is reused without touching the state, a whole request changes the module
state only through that `get_llm` caching, and the resulting state is the
same whatever URL was processed — extracted content is never stored in
module state. -/
theorem C9_frame_condition (key : String) (o : Oracles)
    (validators_url : String → Bool) (c : CacheState) (url url2 : String) :
    ((run_request key o validators_url c url).2 = (get_llm key c).2) ∧
    ((get_llm key c).2.cached_llm = some (get_llm key c).1) ∧
    (∀ cfg, c.cached_llm = some cfg → get_llm key c = (cfg, c)) ∧
    (get_llm key ((get_llm key c).2) =
      ((get_llm key c).1, (get_llm key c).2)) ∧
    ((run_request key o validators_url c url).2 =
      (run_request key o validators_url c url2).2) := by
  refine ⟨rfl, ?_, ?_, ?_, rfl⟩
  · cases c with
    | mk cached => cases cached <;> rfl
  · intro cfg h
    unfold get_llm
    rw [h]
  · cases c with
    | mk cached => cases cached <;> rfl

/-- Witness for C9 at a concrete state that already holds a handle: the
cached handle is returned and the state is unchanged. -/
theorem C9_witness :
    get_llm "k2" (CacheState.mk (some (ChatGroqConfig.mk "gemma2-9b-it" "k1"))) =
      (ChatGroqConfig.mk "gemma2-9b-it" "k1",
        CacheState.mk (some (ChatGroqConfig.mk "gemma2-9b-it" "k1"))) := by
  exact (C9_frame_condition "k2" ⟨sampleYTok, sampleWeb, fun _ _ => .ok "S"⟩
    (fun _ => true) (CacheState.mk (some (ChatGroqConfig.mk "gemma2-9b-it" "k1")))
    "u" "u2").2.2.1 (ChatGroqConfig.mk "gemma2-9b-it" "k1") rfl

/-! ## C10 -/

/-- C10: transcript acquisition follows the fixed fallback order: direct
fetch first; on failure, list the transcripts and try in order the English
transcript, a manually created transcript, the first available transcript;
a found non-English transcript is translated to English, untranslated on
translation failure; the no-transcript error is raised (and reported by
the outer handler) only after all of these fail. -/
theorem C10_fallback_order (env : YTEnv) (vid : String) (tl : TranscriptList)
    (t : Transcript) (td : TranscriptData) :
    (∀ ts, env.getTranscript vid = .ok ts →
      get_youtube_transcript env vid = .ret (some (joinTexts ts), [])) ∧
    (∀ e, env.getTranscript vid = .error e → env.listTranscripts vid = .ok tl →
      tl.findTranscriptEn = .ok t →
      get_youtube_transcript_inner env vid = finishTranscript t) ∧
    (∀ e m, env.getTranscript vid = .error e → env.listTranscripts vid = .ok tl →
      tl.findTranscriptEn = .error (.noTranscriptFound m) →
      tl.findManuallyCreated = .ok t →
      get_youtube_transcript_inner env vid = finishTranscript t) ∧
    (∀ e m m2 rest, env.getTranscript vid = .error e →
      env.listTranscripts vid = .ok tl →
      tl.findTranscriptEn = .error (.noTranscriptFound m) →
      tl.findManuallyCreated = .error (.noTranscriptFound m2) →
      tl.availableTranscripts = .ok (t :: rest) →
      get_youtube_transcript_inner env vid = finishTranscript t) ∧
    (∀ e m m2, env.getTranscript vid = .error e →
      env.listTranscripts vid = .ok tl →
      tl.findTranscriptEn = .error (.noTranscriptFound m) →
      tl.findManuallyCreated = .error (.noTranscriptFound m2) →
      (tl.availableTranscripts = .ok [] ∨ ∃ e2, tl.availableTranscripts = .error e2) →
      get_youtube_transcript env vid =
        .ret (none, [detailedError (.other "No transcript found after trying all methods")])) ∧
    (t.language_code = "en" → finishTranscript t = fetchJoin t.data []) ∧
    (t.language_code ≠ "en" → t.translateEn = .ok td →
      finishTranscript t = fetchJoin td []) ∧
    (∀ e2, t.language_code ≠ "en" → t.translateEn = .error e2 →
      finishTranscript t =
        fetchJoin t.data ["Could not translate transcript to English: " ++ Exc.msg e2]) := by
  refine ⟨?_, ?_, ?_, ?_, ?_, ?_, ?_, ?_⟩
  · intro ts h
    simp only [get_youtube_transcript, get_youtube_transcript_inner, h]
  · intro e h1 h2 h3
    simp only [get_youtube_transcript_inner, pickFallback, h1, h2, h3]
  · intro e m h1 h2 h3 h4
    simp only [get_youtube_transcript_inner, pickFallback, h1, h2, h3, h4]
  · intro e m m2 rest h1 h2 h3 h4 h5
    simp only [get_youtube_transcript_inner, pickFallback, h1, h2, h3, h4, h5]
  · intro e m m2 h1 h2 h3 h4 h5
    rcases h5 with h5 | ⟨e2, h5⟩ <;>
      simp only [get_youtube_transcript, get_youtube_transcript_inner,
        pickFallback, h1, h2, h3, h4, h5]
  · intro hl
    unfold finishTranscript
    rw [if_neg (by simp [hl])]
  · intro hl ht
    unfold finishTranscript
    rw [if_pos (by simpa using hl), ht]
  · intro e2 hl ht
    unfold finishTranscript
    rw [if_pos (by simpa using hl), ht]

/-- Witness for C10 at concrete oracles: the direct-fetch success case, the
manually-created fallback case (with successful translation of the French
transcript), and the everything-fails case. -/
theorem C10_witness :
    get_youtube_transcript sampleYTok "v" =
      .ret (some (joinTexts ["hello", "world"]), []) ∧
    get_youtube_transcript_inner sampleYT "v" =
      finishTranscript ⟨"fr", ⟨.ok ["bonjour"]⟩, .ok ⟨.ok ["hello"]⟩⟩ ∧
    finishTranscript ⟨"fr", ⟨.ok ["bonjour"]⟩, .ok ⟨.ok ["hello"]⟩⟩ =
      fetchJoin ⟨.ok ["hello"]⟩ [] ∧
    get_youtube_transcript sampleYTnone "v" =
      .ret (none, [detailedError (.other "No transcript found after trying all methods")]) := by
  refine ⟨?_, ?_, ?_, ?_⟩
  · exact (C10_fallback_order sampleYTok "v" sampleTL
      ⟨"fr", ⟨.ok ["bonjour"]⟩, .ok ⟨.ok ["hello"]⟩⟩ ⟨.ok ["hello"]⟩).1
      ["hello", "world"] rfl
  · exact (C10_fallback_order sampleYT "v" sampleTL
      ⟨"fr", ⟨.ok ["bonjour"]⟩, .ok ⟨.ok ["hello"]⟩⟩ ⟨.ok ["hello"]⟩).2.2.1
      (.other "boom") "n" rfl rfl rfl rfl
  · exact (C10_fallback_order sampleYT "v" sampleTL
      ⟨"fr", ⟨.ok ["bonjour"]⟩, .ok ⟨.ok ["hello"]⟩⟩ ⟨.ok ["hello"]⟩).2.2.2.2.2.2.1
      (by decide) rfl
  · exact (C10_fallback_order sampleYTnone "v"
      ⟨.error (.noTranscriptFound "n"), .error (.noTranscriptFound "n"), .ok []⟩
      ⟨"fr", ⟨.ok ["bonjour"]⟩, .ok ⟨.ok ["hello"]⟩⟩ ⟨.ok ["hello"]⟩).2.2.2.2.1
      (.other "boom") "n" "n" rfl rfl rfl rfl (Or.inl rfl)

/-! ## Trace characterization (shared by C3 and C8) -/

/-- Where the content stuffed into the prompt came from: the transcript of
the YouTube branch or the extracted text of the website branch, matching
the branch the URL dispatched to. -/
def contentOrigin (env : AppEnv) (url : String) (c : String) : Prop :=
  (ytCond url = true ∧ ∃ warns,
    get_youtube_transcript env.yt ((get_youtube_id url).getD "") =
      .ret (some c, warns)) ∨
  (ytCond url = false ∧ ∃ msgs,
    extract_text_from_url env.web url = .ret (some c, msgs))

/-- The shared tail on a blank single document: the no-content error, no
model call. -/
theorem summarize_tail_blank (env : AppEnv) (c : String) (log : CallLog)
    (h : strBlank c = true) :
    summarize_tail env [Document.mk c] log =
      (.ret (none, some "No content could be extracted from the URL"), log) := by
  unfold summarize_tail
  dsimp only
  rw [if_pos h]

/-- The shared tail on a non-blank single document: exactly one model call,
whose input is the prompt template filled with that content. -/
theorem summarize_tail_call (env : AppEnv) (c : String) (log : CallLog)
    (h : strBlank c = false) :
    ∃ r, summarize_tail env [Document.mk c] log =
      (r, CallLog.mk (log.llmInputs ++ [formatPrompt c]) log.webCalled) := by
  unfold summarize_tail
  dsimp only
  rw [if_neg (by rw [h]; exact Bool.false_ne_true)]
  have hc : stuffDocuments [Document.mk c] = c := rfl
  rw [hc]
  cases env.llmCall (formatPrompt c) with
  | ok s => exact ⟨_, rfl⟩
  | error e => exact ⟨_, rfl⟩

/-- A non-falsy optional string is `some` of a non-empty string. -/
theorem optStrTruthy_some {o : Option String} (h : ¬ optStrTruthy o = false) :
    ∃ s, o = some s ∧ s ≠ "" ∧ o.getD "" = s := by
  cases o with
  | none => exact absurd rfl h
  | some s =>
    refine ⟨s, rfl, ?_, rfl⟩
    intro hs
    exact h (by simp [optStrTruthy, hs])

/-- Every run of `summarize_content` sends either no prompt or exactly one
prompt to the model; that prompt is the fixed template filled with the
non-blank content produced by the branch the URL dispatched to. -/
theorem summarize_trace (env : AppEnv) (url : String) :
    (summarize_content env url).2.llmInputs = [] ∨
    ∃ c, strBlank c = false ∧
      (summarize_content env url).2.llmInputs = [formatPrompt c] ∧
      contentOrigin env url c := by
  unfold summarize_content
  by_cases hyt : ytCond url
  · rw [if_pos hyt]
    by_cases hv : optStrTruthy (get_youtube_id url) = false
    · rw [if_pos hv]; exact Or.inl rfl
    · rw [if_neg hv]
      obtain ⟨o, m, h⟩ := yt_never_raises env.yt ((get_youtube_id url).getD "")
      rw [h]
      dsimp only
      by_cases ht : optStrTruthy o = false
      · rw [if_pos ht]; exact Or.inl rfl
      · rw [if_neg ht]
        obtain ⟨s, hs, hne, hgd⟩ := optStrTruthy_some ht
        by_cases hblank : strBlank (o.getD "")
        · rw [summarize_tail_blank env _ _ hblank]; exact Or.inl rfl
        · obtain ⟨r, hr⟩ := summarize_tail_call env (o.getD "") ⟨[], false⟩
            (Bool.eq_false_iff.mpr hblank)
          rw [hr]
          refine Or.inr ⟨o.getD "", Bool.eq_false_iff.mpr hblank, rfl, Or.inl ⟨hyt, m, ?_⟩⟩
          rw [hgd, ← hs]
          exact h
  · rw [if_neg hyt]
    obtain ⟨o, m, h⟩ := web_never_raises env.web url
    rw [h]
    dsimp only
    by_cases ht : optStrTruthy o = false
    · rw [if_pos ht]; exact Or.inl rfl
    · rw [if_neg ht]
      obtain ⟨s, hs, hne, hgd⟩ := optStrTruthy_some ht
      by_cases hblank : strBlank (o.getD "")
      · rw [summarize_tail_blank env _ _ hblank]; exact Or.inl rfl
      · obtain ⟨r, hr⟩ := summarize_tail_call env (o.getD "") ⟨[], true⟩
          (Bool.eq_false_iff.mpr hblank)
        rw [hr]
        refine Or.inr ⟨o.getD "", Bool.eq_false_iff.mpr hblank, rfl,
          Or.inr ⟨Bool.eq_false_iff.mpr hyt, m, ?_⟩⟩
        rw [hgd, ← hs]
        exact h

/-! ## C3 -/

/-- C3: the text sent to the model is always the one fixed prompt template
(which asks for a summary in 300 words) with the extracted content
substituted for its `text` variable; the template is the constant
`prompt_template` whatever the input, and both the YouTube branch and the
website branch feed it. -/
theorem C3_fixed_prompt_template (env : AppEnv) (url : String) :
    strContains prompt_template "300 words" = true ∧
    strContains prompt_template "{text}" = true ∧
    ((summarize_content env url).2.llmInputs = [] ∨
      ∃ c, (summarize_content env url).2.llmInputs = [formatPrompt c] ∧
        contentOrigin env url c) := by
  refine ⟨by decide, by decide, ?_⟩
  rcases summarize_trace env url with h | ⟨c, _, h, horig⟩
  · exact Or.inl h
  · exact Or.inr ⟨c, h, horig⟩

/-! ## C8 -/

/-- C8: the model is never invoked with empty content:
`extract_text_from_url` never returns a blank string (it returns `None`),
the shared guard returns the no-content error on a blank document without
calling the model, and every prompt actually sent to the model carries
non-blank content. -/
theorem C8_no_empty_content (wenv : WebEnv) (u : String) (env : AppEnv)
    (url c : String) (log : CallLog) :
    (∀ o m s, extract_text_from_url wenv u = .ret (o, m) → o = some s →
      strBlank s = false) ∧
    (strBlank c = true →
      summarize_tail env [Document.mk c] log =
        (.ret (none, some "No content could be extracted from the URL"), log)) ∧
    (∀ inp, inp ∈ (summarize_content env url).2.llmInputs →
      ∃ c2, strBlank c2 = false ∧ inp = formatPrompt c2) := by
  refine ⟨?_, summarize_tail_blank env c log, ?_⟩
  · intro o m s hret hsome
    unfold extract_text_from_url at hret
    cases hfp : wenv.fetchPage u with
    | ok soup =>
      rw [hfp] at hret
      dsimp only at hret
      by_cases hb : strBlank (extracted_text soup)
      · rw [if_pos hb] at hret
        cases hret
        cases hsome
      · rw [if_neg hb] at hret
        cases hret
        cases hsome
        exact Bool.eq_false_iff.mpr hb
    | error e =>
      rw [hfp] at hret
      cases hret
      cases hsome
  · intro inp hinp
    rcases summarize_trace env url with h | ⟨c2, hb, h, _⟩
    · rw [h] at hinp; cases hinp
    · rw [h] at hinp
      rcases List.mem_singleton.mp hinp with rfl
      exact ⟨c2, hb, rfl⟩

/-- Witness for C8 at concrete oracles: the fetched page whose text strips
to blank yields `None`, a blank document yields the no-content error, and
the single prompt sent in a successful run carries non-blank content. -/
theorem C8_witness :
    (∀ o m s,
      extract_text_from_url (WebEnv.mk (fun _ => .ok ⟨some ["   ", ""], []⟩))
        "https://example.com" = .ret (o, m) → o = some s → strBlank s = false) ∧
    summarize_tail sampleEnv [Document.mk " \t "] (CallLog.mk [] true) =
      (.ret (none, some "No content could be extracted from the URL"),
        CallLog.mk [] true) ∧
    (∀ inp, inp ∈ (summarize_content sampleEnv "https://example.com").2.llmInputs →
      ∃ c2, strBlank c2 = false ∧ inp = formatPrompt c2) := by
  have h := C8_no_empty_content (WebEnv.mk (fun _ => .ok ⟨some ["   ", ""], []⟩))
    "https://example.com" sampleEnv "https://example.com" " \t " (CallLog.mk [] true)
  exact ⟨h.1, h.2.1 (by decide), h.2.2⟩

/-! ## C5 -/

/-- The tail never changes the `webCalled` flag it is given. -/
theorem summarize_tail_webCalled (env : AppEnv) (docs : List Document)
    (log : CallLog) : (summarize_tail env docs log).2.webCalled = log.webCalled := by
  cases docs with
  | nil => rfl
  | cons d rest =>
    unfold summarize_tail
    dsimp only
    by_cases hb : strBlank d.page_content
    · rw [if_pos hb]
    · rw [if_neg hb]
      cases env.llmCall (formatPrompt (stuffDocuments (d :: rest))) <;> rfl

/-- Under the substring condition the website branch never runs. -/
theorem yt_branch_no_web (env : AppEnv) (url : String) (hyt : ytCond url = true) :
    (summarize_content env url).2.webCalled = false := by
  unfold summarize_content
  rw [if_pos hyt]
  by_cases hv : optStrTruthy (get_youtube_id url) = false
  · rw [if_pos hv]
  · rw [if_neg hv]
    obtain ⟨o, m, h⟩ := yt_never_raises env.yt ((get_youtube_id url).getD "")
    rw [h]
    dsimp only
    by_cases ht : optStrTruthy o = false
    · rw [if_pos ht]
    · rw [if_neg ht]
      exact summarize_tail_webCalled env _ _

/-- Counterexample to C5 as stated: `https://youtu.be/abc123` contains
`youtu.be`, its parsed hostname `youtu.be` is in the dispatch set but its
path is not `/watch`, yet `get_youtube_id` returns `abc123`, not `None`. -/
theorem C5_counterexample :
    strContains "https://youtu.be/abc123" "youtu.be" = true ∧
    url_hostname "https://youtu.be/abc123" = some "youtu.be" ∧
    url_path "https://youtu.be/abc123" ≠ "/watch" ∧
    get_youtube_id "https://youtu.be/abc123" = some "abc123" := by
  refine ⟨by decide, by decide, by decide, by decide⟩

/-- C5 (amended): dispatch is by substring — any URL containing
`youtube.com` or `youtu.be` goes to the YouTube branch and website
extraction never runs; for such a URL whose parsed hostname is none of the
four recognized hosts `get_youtube_id` is `None`; for a
`youtube.com`/`www.youtube.com` hostname with a path other than `/watch`
it is `None`; and whenever `get_youtube_id` yields no usable ID,
`summarize_content` returns the video-ID error with no model call and no
website extraction. -/
theorem C5_substring_dispatch (env : AppEnv) (url : String)
    (hyt : ytCond url = true) :
    ((summarize_content env url).2.webCalled = false) ∧
    (url_hostname url ≠ some "youtu.be" → url_hostname url ≠ some "www.youtu.be" →
      url_hostname url ≠ some "youtube.com" → url_hostname url ≠ some "www.youtube.com" →
      get_youtube_id url = none) ∧
    ((url_hostname url = some "youtube.com" ∨ url_hostname url = some "www.youtube.com") →
      url_path url ≠ "/watch" → get_youtube_id url = none) ∧
    (optStrTruthy (get_youtube_id url) = false →
      summarize_content env url =
        (.ret (none, some "Could not extract YouTube video ID from URL"),
          CallLog.mk [] false)) := by
  refine ⟨yt_branch_no_web env url hyt, ?_, ?_, ?_⟩
  · intro h1 h2 h3 h4
    unfold get_youtube_id
    dsimp only
    rw [if_neg (by rintro (h | h); exacts [h1 h, h2 h]),
      if_neg (by rintro (h | h); exacts [h3 h, h4 h])]
  · intro hh hpath
    unfold get_youtube_id
    dsimp only
    rcases hh with h | h <;>
      rw [h] <;>
      rw [if_neg (by decide), if_pos (by simp),
        if_neg hpath]
  · intro hv
    unfold summarize_content
    rw [if_pos hyt]
    dsimp only
    rw [if_pos hv]

/-- Witness for C5 (amended) at `https://m.youtube.com/watch?v=abc`: the
hostname `m.youtube.com` is outside the dispatch set, so the ID is `None`
and the video-ID error is returned without website extraction. -/
theorem C5_witness :
    (summarize_content sampleEnv "https://m.youtube.com/watch?v=abc").2.webCalled = false ∧
    get_youtube_id "https://m.youtube.com/watch?v=abc" = none ∧
    summarize_content sampleEnv "https://m.youtube.com/watch?v=abc" =
      (.ret (none, some "Could not extract YouTube video ID from URL"),
        CallLog.mk [] false) := by
  have h := C5_substring_dispatch sampleEnv "https://m.youtube.com/watch?v=abc"
    (by decide)
  refine ⟨h.1, ?_, ?_⟩
  · exact h.2.1 (by decide) (by decide) (by decide) (by decide)
  · exact h.2.2.2 (by rw [h.2.1 (by decide) (by decide) (by decide) (by decide)]; rfl)

/-! ## C4 -/

/-- The collapsed line starts with the same word as the original line. -/
theorem collapse_head : ∀ (w : String) (ws : List String),
    (collapse_dup_words (w :: ws)).head? = some w
  | _, [] => rfl
  | w, w2 :: ws => by
    unfold collapse_dup_words
    by_cases h : w = w2
    · rw [if_pos h, h]
      exact collapse_head w2 ws
    · rw [if_neg h]
      rfl

/-- The collapsed line has no adjacent duplicate words. -/
theorem collapse_no_adjacent_dup : ∀ l : List String,
    List.Chain' (fun a b => a ≠ b) (collapse_dup_words l)
  | [] => by simp [collapse_dup_words]
  | [w] => by simp [collapse_dup_words]
  | w1 :: w2 :: ws => by
    unfold collapse_dup_words
    by_cases h : w1 = w2
    · rw [if_pos h]
      exact collapse_no_adjacent_dup (w2 :: ws)
    · rw [if_neg h]
      refine List.chain'_cons'.mpr ⟨?_, collapse_no_adjacent_dup (w2 :: ws)⟩
      intro y hy
      rw [collapse_head w2 ws] at hy
      cases hy
      exact h

/-- Collapsing only removes words: the result is a sublist of the line. -/
theorem collapse_sublist : ∀ l : List String, List.Sublist (collapse_dup_words l) l
  | [] => List.Sublist.refl _
  | [w] => List.Sublist.refl _
  | w1 :: w2 :: ws => by
    unfold collapse_dup_words
    by_cases h : w1 = w2
    · rw [if_pos h]
      exact (collapse_sublist (w2 :: ws)).trans (List.sublist_cons_self _ _)
    · rw [if_neg h]
      exact (collapse_sublist (w2 :: ws)).cons₂ w1

/-- C4 (spec-modelled): the transcript cleaning step collapses
adjacent-duplicate words independently within each line: every cleaned
line has no adjacent duplicates, only omits words of the original line, and
the cleaning is exactly the per-line map of the collapse. -/
theorem C4_dedup_per_line (t : List (List String)) :
    (∀ l, l ∈ t → collapse_dup_words l ∈ clean_transcript_lines t) ∧
    (∀ l, l ∈ clean_transcript_lines t →
      List.Chain' (fun a b => a ≠ b) l) ∧
    (∀ l, l ∈ t → List.Sublist (collapse_dup_words l) l) ∧
    clean_transcript_lines t = t.map collapse_dup_words := by
  refine ⟨?_, ?_, ?_, rfl⟩
  · intro l hl
    exact List.mem_map_of_mem collapse_dup_words hl
  · intro l hl
    obtain ⟨l0, _, rfl⟩ := List.mem_map.mp hl
    exact collapse_no_adjacent_dup l0
  · intro l _
    exact collapse_sublist l

/-- Witness for C4 at a concrete transcript: the repeated words of each
line are collapsed. -/
theorem C4_witness :
    collapse_dup_words ["the", "the", "cat", "sat", "sat", "sat", "down"] ∈
      clean_transcript_lines [["the", "the", "cat", "sat", "sat", "sat", "down"]] ∧
    List.Chain' (fun a b => a ≠ b)
      (collapse_dup_words ["the", "the", "cat", "sat", "sat", "sat", "down"]) := by
  have h := C4_dedup_per_line [["the", "the", "cat", "sat", "sat", "sat", "down"]]
  refine ⟨h.1 _ (by simp), ?_⟩
  exact h.2.1 _ (h.1 _ (by simp))

/-! ## C7 -/

/-- Is an `Except` outcome a success?  Used to state that the retry loop
treats all failures alike. -/
def isOkE : Except String α → Bool
  | .ok _ => true
  | .error _ => false

/-- The loop never runs more attempts than its budget. -/
theorem retryLoop_attempts_le (delay : Nat) (op : Nat → Except String α) :
    ∀ n i, (retryLoop delay op i n).attempts ≤ n
  | 0, _ => Nat.le_refl 0
  | 1, i => by unfold retryLoop; exact Nat.le_refl 1
  | n + 2, i => by
    unfold retryLoop
    cases op i with
    | ok a => exact Nat.le_add_left 1 _
    | error e =>
      dsimp only
      exact Nat.succ_le_succ (retryLoop_attempts_le delay op (n + 1) (i + 1))

/-- Every sleep the loop performs has the one fixed duration. -/
theorem retryLoop_sleeps_const (delay : Nat) (op : Nat → Except String α) :
    ∀ n i d, d ∈ (retryLoop delay op i n).sleeps → d = delay
  | 0, _, d => by intro h; cases h
  | 1, i, d => by intro h; cases h
  | n + 2, i, d => by
    unfold retryLoop
    cases op i with
    | ok a => intro h; cases h
    | error e =>
      dsimp only
      intro h
      rcases List.mem_cons.mp h with rfl | h
      · rfl
      · exact retryLoop_sleeps_const delay op (n + 1) (i + 1) d h

/-- The loop sleeps exactly once between consecutive attempts. -/
theorem retryLoop_sleeps_count (delay : Nat) (op : Nat → Except String α) :
    ∀ n i, 1 ≤ n →
      (retryLoop delay op i n).attempts = (retryLoop delay op i n).sleeps.length + 1
  | 0, _, h => absurd h (by simp)
  | 1, i, _ => rfl
  | n + 2, i, _ => by
    unfold retryLoop
    cases op i with
    | ok a => rfl
    | error e =>
      dsimp only
      rw [List.length_cons,
        retryLoop_sleeps_count delay op (n + 1) (i + 1) (Nat.succ_le_succ (Nat.zero_le n))]

/-- The loop's control flow ignores which failure occurred: two operations
failing at exactly the same attempts produce the same attempt count and the
same sleep schedule. -/
theorem retryLoop_no_distinction (delay : Nat) (op op2 : Nat → Except String α)
    (hsame : ∀ j, isOkE (op j) = isOkE (op2 j)) :
    ∀ n i, (retryLoop delay op i n).attempts = (retryLoop delay op2 i n).attempts ∧
      (retryLoop delay op i n).sleeps = (retryLoop delay op2 i n).sleeps
  | 0, _ => ⟨rfl, rfl⟩
  | 1, i => by
    unfold retryLoop
    exact ⟨rfl, rfl⟩
  | n + 2, i => by
    unfold retryLoop
    have h := hsame i
    cases h1 : op i with
    | ok a =>
      cases h2 : op2 i with
      | ok b => exact ⟨rfl, rfl⟩
      | error e => rw [h1, h2] at h; simp [isOkE] at h
    | error e =>
      cases h2 : op2 i with
      | ok b => rw [h1, h2] at h; simp [isOkE] at h
      | error e2 =>
        dsimp only
        have ih := retryLoop_no_distinction delay op op2 hsame (n + 1) (i + 1)
        rw [ih.1, ih.2]
        exact ⟨rfl, rfl⟩

/-- C7 (spec-modelled): failure recovery is a fixed-count sleep-and-retry
loop: at most the fixed number of attempts run, every sleep has the one
fixed duration (no backoff, no jitter), consecutive attempts are separated
by exactly one sleep, and the loop retries irrespective of which failure
occurred. -/
theorem C7_fixed_retry (maxA delay : Nat) (op op2 : Nat → Except String α) :
    (retry_with_sleep maxA delay op).attempts ≤ maxA ∧
    (∀ d, d ∈ (retry_with_sleep maxA delay op).sleeps → d = delay) ∧
    (1 ≤ maxA →
      (retry_with_sleep maxA delay op).attempts =
        (retry_with_sleep maxA delay op).sleeps.length + 1) ∧
    ((∀ j, isOkE (op j) = isOkE (op2 j)) →
      (retry_with_sleep maxA delay op).attempts =
          (retry_with_sleep maxA delay op2).attempts ∧
        (retry_with_sleep maxA delay op).sleeps =
          (retry_with_sleep maxA delay op2).sleeps) := by
  refine ⟨retryLoop_attempts_le delay op maxA 0,
    fun d => retryLoop_sleeps_const delay op maxA 0 d,
    fun h => retryLoop_sleeps_count delay op maxA 0 h,
    fun hsame => retryLoop_no_distinction delay op op2 hsame maxA 0⟩

/-- Witness for C7 at a concrete budget of three attempts with two
failures: three attempts, two equal sleeps, and an operation failing with
different messages at the same attempts behaves identically. -/
theorem C7_witness :
    (retry_with_sleep 3 2 (fun i => if i < 2 then .error "downA" else .ok 7)).attempts ≤ 3 ∧
    (2 ∈ (retry_with_sleep 3 2 (fun i => if i < 2 then .error "downA" else .ok 7)).sleeps → (2 : Nat) = 2) ∧
    (retry_with_sleep 3 2 (fun i => if i < 2 then .error "downA" else .ok 7)).attempts =
      (retry_with_sleep 3 2 (fun i => if i < 2 then .error "downA" else .ok 7)).sleeps.length + 1 ∧
    (retry_with_sleep 3 2 (fun i => if i < 2 then .error "downA" else .ok 7)).sleeps =
      (retry_with_sleep 3 2 (fun i => if i < 2 then .error "downB" else .ok 7)).sleeps := by
  have h := C7_fixed_retry 3 2 (fun i => if i < 2 then .error "downA" else .ok 7)
    (fun i => if i < 2 then .error "downB" else .ok 7)
  refine ⟨h.1, fun hm => h.2.1 2 hm, h.2.2.1 (by decide), ?_⟩
  exact (h.2.2.2 (by intro j; by_cases hj : j < 2 <;> simp [hj, isOkE])).2

end SummarizeIt
